import Mathlib

set_option linter.unusedVariables false

/-!
Verification of the pagination core of `github-api-paginated.py`:
`parse_data`, `check_rate_limit` and `get_paginated_data`.

The embedding is shallow:
* Decoded JSON bodies become the inductive type `PyVal` (mappings are
  association lists in insertion order, mirroring Python dicts).
* Python exceptions that escape a function become `Except PyErr`.
* The HTTP layer (`requests.get`) is scripted: one run of
  `get_paginated_data` consumes a list of `ReqEvent`s, one per issued
  request; an event is either a transport-level
  `requests.exceptions.RequestException` or a `Response` record holding
  the status code, the two rate-limit headers (already converted to
  integers, as `int(...)` does on line 72 and 73 of the source), the
  `Link` header and the decoded body.
* Wall-clock time is an integer `clock` threaded through the run;
  `time.sleep` appends its duration to a `sleeps` trace and advances the
  clock. The network call itself is modelled as instantaneous.
-/

/-- Python exceptions that the core can raise and that are NOT
`requests.exceptions.RequestException` (so the handler on line 158 of the
source does not catch them). -/
inductive PyErr where
  | indexError
  | attributeError
  | typeError
deriving DecidableEq, Repr

/-- Decoded JSON / Python values.  Dicts are association lists in
insertion order with (in any value produced by `json.loads`) unique
keys. -/
inductive PyVal where
  | none
  | bool (b : Bool)
  | int (n : Int)
  | str (s : String)
  | list (xs : List PyVal)
  | dict (kvs : List (String × PyVal))

/-- Python truthiness (`if not data:` on line 49 of the source). -/
def pyFalsy : PyVal → Bool
  | .none => true
  | .bool b => !b
  | .int n => n == 0
  | .str s => s == ""
  | .list xs => xs.isEmpty
  | .dict kvs => kvs.isEmpty

/-- `data.pop(key, None)`: remove the entry for `key` from an association
list (a Python dict has at most one). -/
def popKey (key : String) (d : List (String × PyVal)) : List (String × PyVal) :=
  d.filter (fun p => !(p.1 == key))

/-- Lines 56-58 of the source: the three `data.pop(...)` calls performed on
the copy of the page object. -/
def strip_metadata (d : List (String × PyVal)) : List (String × PyVal) :=
  popKey "total_count" (popKey "repository_selection" (popKey "incomplete_results" d))

/-- Embedding of `parse_data(data, page_number)` (source lines 36-65).
* a list is returned as-is (line 43-45);
* a falsy body yields `[]` (line 49-51);
* otherwise the body is treated as a dict: the three metadata keys are
  popped from a copy (lines 55-58), `list(data.keys())[0]` takes the first
  remaining key -- raising `IndexError` when none remains -- and
  `data[namespace_key]` returns its value (lines 61-62);
* a truthy non-list non-dict body would fail at `data.copy()` /
  `data.pop` with an `AttributeError`. -/
def parse_data (data : PyVal) (page_number : Nat) : Except PyErr PyVal :=
  match data with
  | .list xs => .ok (.list xs)
  | .dict kvs =>
    if pyFalsy (.dict kvs) then .ok (.list []) else
    let stripped := strip_metadata kvs
    match stripped with
    | [] => .error .indexError
    | (k, _) :: _ => .ok ((List.lookup k stripped).getD .none)
  | other => if pyFalsy other then .ok (.list []) else .error .attributeError

/-- The metadata keys stripped by `parse_data`. -/
def metaKeys : List String := ["incomplete_results", "repository_selection", "total_count"]

example : parse_data (.list [.int 1, .int 2]) 1 = .ok (.list [.int 1, .int 2]) := rfl
example : parse_data .none 1 = .ok (.list []) := rfl
example : parse_data (.dict [("total_count", .int 3), ("items", .list [.int 7])]) 1
    = .ok (.list [.int 7]) := rfl
example : parse_data (.dict [("total_count", .int 3)]) 1 = .error .indexError := rfl

/-!
Heap-instrumented embedding of `parse_data`, used to state the frame
property (the caller's mapping is not mutated).  Python dicts are mutable
objects on a heap; here a dict value is an address `dictRef r` into a
`Store`, `data.copy()` (line 55) allocates a fresh object at the end of
the store, and `data.pop(...)` mutates the addressed object in place.
-/

/-- Python values with dicts as heap references. -/
inductive PyObj where
  | none
  | bool (b : Bool)
  | int (n : Int)
  | str (s : String)
  | listv (xs : List PyObj)
  | dictRef (r : Nat)

/-- The heap of dict objects. -/
abbrev Store := List (List (String × PyObj))

/-- Dereference a dict address. -/
def getObj (s : Store) (r : Nat) : List (String × PyObj) :=
  List.getD s r []

/-- In-place `pop(key, None)` on the dict object at address `r`. -/
def popKeyAt (s : Store) (r : Nat) (key : String) : Store :=
  List.set s r ((getObj s r).filter (fun p => !(p.1 == key)))

/-- Python truthiness over heap values. -/
def pyFalsyObj (s : Store) : PyObj → Bool
  | .none => true
  | .bool b => !b
  | .int n => n == 0
  | .str t => t == ""
  | .listv xs => xs.isEmpty
  | .dictRef r => (getObj s r).isEmpty

/-- Heap-instrumented `parse_data` (source lines 36-65): same control flow
as `parse_data`, but `data = data.copy()` allocates a fresh object and the
three pops mutate only that copy.  Returns the final store next to the
result. -/
def parse_data_mem (store : Store) (data : PyObj) (page_number : Nat) :
    Store × Except PyErr PyObj :=
  match data with
  | .listv xs => (store, .ok (.listv xs))
  | .dictRef r =>
    if pyFalsyObj store (.dictRef r) then (store, .ok (.listv [])) else
    let c := List.length store
    let s1 := store ++ [getObj store r]
    let s2 := popKeyAt s1 c "incomplete_results"
    let s3 := popKeyAt s2 c "repository_selection"
    let s4 := popKeyAt s3 c "total_count"
    match getObj s4 c with
    | [] => (s4, .error .indexError)
    | (k, _) :: _ => (s4, .ok ((List.lookup k (getObj s4 c)).getD .none))
  | other => if pyFalsyObj store other then (store, .ok (.listv [])) else
    (store, .error .attributeError)

/-!
The `Link` header.  Source line 145 tests membership of the literal
substring `rel="next"`; line 91 compiles the regular expression
`(?<=<)([\S]*)(?=>; rel="next")` with `re.IGNORECASE` and line 149 calls
`.search(...).group(1)` on the header.  Both are embedded over `List Char`.
-/

/-- ASCII whitespace as matched by the regex class `\s` (the urls the
claims quantify over are restricted to ASCII, see `goodUrl`). -/
def isWS (c : Char) : Bool :=
  c == ' ' || c == '\t' || c == '\n' || c == '\r' || c == '\x0b' || c == '\x0c'

/-- Case-sensitive "text starts with pattern". -/
def startsWithChars : List Char → List Char → Bool
  | [], _ => true
  | _ :: _, [] => false
  | p :: ps, c :: cs => (p == c) && startsWithChars ps cs

/-- Python substring membership `pat in text`. -/
def hasSubstrChars (pat : List Char) : List Char → Bool
  | [] => startsWithChars pat []
  | c :: cs => startsWithChars pat (c :: cs) || hasSubstrChars pat cs

/-- The literal tested on source line 145. -/
def relNext : List Char := "rel=\"next\"".toList

/-- Line 145: `pages_remaining = link_header and 'rel="next"' in link_header`
(a missing or empty header is falsy). -/
def linkNext : Option (List Char) → Bool
  | Option.none => false
  | Option.some h => hasSubstrChars relNext h

/-- Case-insensitive "text starts with (lowercase) pattern", the
`re.IGNORECASE` comparison. -/
def startsWithLowerEq : List Char → List Char → Bool
  | [], _ => true
  | _ :: _, [] => false
  | p :: ps, c :: cs => (p == c.toLower) && startsWithLowerEq ps cs

/-- The lookahead text of the regex on line 91. -/
def nextAnchor : List Char := ">; rel=\"next\"".toList

/-- Greedy match of `([\S]*)(?=>; rel="next")` at a fixed start position:
prefer consuming one more non-whitespace character when the rest still
matches, otherwise accept here if the lookahead holds.  Returns group 1. -/
def greedyGroup : List Char → Option (List Char)
  | [] => if startsWithLowerEq nextAnchor [] then some [] else Option.none
  | c :: cs =>
    if isWS c then
      (if startsWithLowerEq nextAnchor (c :: cs) then some [] else Option.none)
    else
      match greedyGroup cs with
      | some g => some (c :: g)
      | Option.none =>
        if startsWithLowerEq nextAnchor (c :: cs) then some [] else Option.none

/-- Scan for the first position satisfying the lookbehind `(?<=<)` at which
the rest of the pattern matches. -/
def searchNextAux : List Char → Option (List Char)
  | [] => Option.none
  | c :: cs =>
    if c == '<' then
      match greedyGroup cs with
      | some g => some g
      | Option.none => searchNextAux cs
    else searchNextAux cs

/-- `next_pattern.search(link_header).group(1)` as a total function:
`Option.none` means `search` returned `None` (so `.group(1)` raises
`AttributeError`). -/
def next_pattern_search (s : List Char) : Option (List Char) :=
  searchNextAux s

example : next_pattern_search "<https://x/p2>; rel=\"next\"".toList
    = some "https://x/p2".toList := by decide
example : next_pattern_search "<a>;rel=\"next\"".toList = Option.none := by decide
example : linkNext (some "<a>;rel=\"next\"".toList) = true := by decide

/-!
The pagination engine `get_paginated_data` (source lines 89-172).
-/

/-- One HTTP response as consumed by the core: status code, the two
rate-limit headers already converted to integers (`Option.none` = header
absent, line 72-73 default it to 0), the raw `Link` header, the decoded
JSON body. -/
structure Response where
  status : Nat
  remaining : Option Int
  reset : Option Int
  link : Option (List Char)
  body : PyVal

/-- What one call of `requests.get` does: raise a transport-level
`requests.exceptions.RequestException`, or deliver a response. -/
inductive ReqEvent where
  | exn
  | resp (r : Response)

/-- The local state of one run of `get_paginated_data` (source lines
104-107), plus the integer wall clock and the trace of `time.sleep`
durations. -/
structure EngineState where
  url : List Char
  pagesRemaining : Bool
  data : List PyVal
  retries : Nat
  pageNumber : Nat
  clock : Int
  sleeps : List Int

/-- Outcome of `check_rate_limit(response)` (source lines 67-87): either
the function returns normally, or it sleeps for `wait` seconds and raises
`GitHubRateLimitError`. -/
inductive RateOutcome where
  | proceeded
  | rateLimited (wait : Int)

/-- Embedding of `check_rate_limit` (source lines 67-87), with
`int(response.headers.get(..., 0))` modelled by `Option.getD 0` and
`int(time.time())` passed in as `now`. -/
def check_rate_limit (resp : Response) (now : Int) : RateOutcome :=
  let remaining := resp.remaining.getD 0
  let reset_time := resp.reset.getD 0
  if remaining = 0 then .rateLimited (max (reset_time - now + 1) 0)
  else .proceeded

/-- `data.extend(parsed_data)` (line 141): Python iterates the argument.
A list appends its elements, a string its characters as 1-character
strings, a dict its keys; other values are not iterable (`TypeError`). -/
def extendPy (acc : List PyVal) (v : PyVal) : Except PyErr (List PyVal) :=
  match v with
  | .list xs => .ok (acc ++ xs)
  | .str s => .ok (acc ++ s.toList.map (fun c => PyVal.str (String.mk [c])))
  | .dict kvs => .ok (acc ++ kvs.map (fun p => PyVal.str p.1))
  | _ => .error .typeError

/-- How the `try` body of one loop iteration (source lines 112-156) ends:
it runs to completion (`ok`), executes the rate-limit `continue` on line
127 (`contin`), raises a `requests.exceptions.RequestException` caught by
line 158 (`reqExc`), or raises something the handler does not catch
(`uncaught`). -/
inductive TryResult where
  | ok (st : EngineState)
  | contin (st : EngineState)
  | reqExc (st : EngineState)
  | uncaught (st : EngineState) (e : PyErr)

/-- The `try` body of one loop iteration (source lines 112-156) on request
outcome `e`:
* a transport exception is a `RequestException` (line 158);
* on status 403, `check_rate_limit` either sleeps and raises
  `GitHubRateLimitError`, caught on line 126 and turned into `continue`
  (the retry counter, url, page number and data are untouched), or
  returns, after which line 134 raises
  `requests.exceptions.HTTPError("Access Forbidden")` -- an instance of
  `RequestException`;
* `response.raise_for_status()` (line 137) raises `HTTPError` -- also a
  `RequestException` -- for statuses 400-599;
* on success, `parse_data` and `data.extend` run (their exceptions are
  not `RequestException`s), the `Link` header is tested for `rel="next"`
  and, when present, `next_pattern.search(...).group(1)` yields the next
  url (raising `AttributeError` when the regex does not match); finally
  `retries = 0` (line 156). -/
def tryBody (e : ReqEvent) (st : EngineState) : TryResult :=
  match e with
  | .exn => .reqExc st
  | .resp resp =>
    if resp.status = 403 then
      match check_rate_limit resp st.clock with
      | .rateLimited wait =>
        .contin { st with clock := st.clock + wait, sleeps := st.sleeps ++ [wait] }
      | .proceeded => .reqExc st
    else if 400 ≤ resp.status ∧ resp.status < 600 then .reqExc st
    else
      match parse_data resp.body st.pageNumber with
      | .error err => .uncaught st err
      | .ok parsed =>
        match extendPy st.data parsed with
        | .error err => .uncaught st err
        | .ok newData =>
          let st1 := { st with data := newData }
          if linkNext resp.link then
            match next_pattern_search (resp.link.getD []) with
            | Option.none => .uncaught st1 .attributeError
            | some u =>
              .ok { st1 with url := u, pagesRemaining := true,
                             pageNumber := st1.pageNumber + 1, retries := 0 }
          else .ok { st1 with pagesRemaining := false, retries := 0 }

/-- Result of one run: the function returned its `data` list (`finished`,
carrying the final state), an exception escaped the loop (`raised`), or
the scripted request list was exhausted while the loop still wanted to
issue a request (`outOfScript`, an artifact of the scripted transport
layer -- every theorem below supplies enough events). -/
inductive Outcome where
  | finished (st : EngineState)
  | raised (st : EngineState) (e : PyErr)
  | outOfScript (st : EngineState)

/-- The `while pages_remaining and retries < max_retries` loop (source
lines 111-169).  Each iteration consumes one scripted request event.  The
`except` handler on lines 158-169 increments `retries`, breaks once it
reaches `max_retries`, and otherwise sleeps `2 ** retries` seconds. -/
def engineLoop (max_retries : Nat) : List ReqEvent → EngineState → Outcome
  | [], st =>
    if st.pagesRemaining ∧ st.retries < max_retries then .outOfScript st
    else .finished st
  | e :: rest, st =>
    if st.pagesRemaining ∧ st.retries < max_retries then
      match tryBody e st with
      | .ok st1 => engineLoop max_retries rest st1
      | .contin st1 => engineLoop max_retries rest st1
      | .uncaught st1 err => .raised st1 err
      | .reqExc st1 =>
        let r := st1.retries + 1
        if max_retries ≤ r then .finished { st1 with retries := r }
        else
          engineLoop max_retries rest
            { st1 with retries := r,
                       sleeps := st1.sleeps ++ [(2 : Int) ^ r],
                       clock := st1.clock + (2 : Int) ^ r }
    else .finished st

/-- The state set up on source lines 104-107 before the loop. -/
def initState (url : List Char) (clk : Int) : EngineState :=
  { url := url, pagesRemaining := true, data := [], retries := 0,
    pageNumber := 1, clock := clk, sleeps := [] }

/-- Embedding of `get_paginated_data(url, token, max_retries)` (source
lines 89-172), parameterised by the scripted transport layer.  The token
and request headers do not influence the control flow and are not
modelled. -/
def get_paginated_data (script : List ReqEvent) (url : List Char)
    (clk : Int) (max_retries : Nat := 3) : Outcome :=
  engineLoop max_retries script (initState url clk)

/-- The run returned normally (no exception) with item list `d`. -/
def isFinishedWith (o : Outcome) (d : List PyVal) : Prop :=
  match o with
  | .finished st => st.data = d
  | _ => False

/-- A scripted successful page: status 200, given items, given raw `Link`
header. -/
def pageEvent (items : List PyVal) (link : Option (List Char)) : ReqEvent :=
  .resp { status := 200, remaining := Option.none, reset := Option.none,
          link := link, body := .list items }

/-- The canonical `Link` header `<url>; rel="next"`. -/
def nextHeader (u : List Char) : List Char :=
  '<' :: (u ++ nextAnchor)

/-- Urls over which the link-extraction lemmas quantify: ASCII and free of
whitespace (so the regex class `\S` of the embedding and of Python
agree). -/
def goodUrl (u : List Char) : Prop :=
  ∀ c ∈ u, c.toNat < 128 ∧ isWS c = false

instance goodUrl.instDecidable (u : List Char) : Decidable (goodUrl u) :=
  inferInstanceAs (Decidable (∀ c ∈ u, c.toNat < 128 ∧ isWS c = false))

/-- Script of `linked.length + 1` successful pages: every page but the
last carries a `Link` header pointing at the next page's url. -/
def pagesScript (linked : List (List PyVal × List Char)) (last : List PyVal) :
    List ReqEvent :=
  (linked.map (fun p => pageEvent p.1 (some (nextHeader p.2)))) ++ [pageEvent last Option.none]

/-! Helper lemmas about `strip_metadata`. -/

lemma popKey_cons (key : String) (p : String × PyVal) (tl : List (String × PyVal)) :
    popKey key (p :: tl) =
      if p.1 = key then popKey key tl else p :: popKey key tl := by
  simp only [popKey, List.filter_cons]
  by_cases h : p.1 = key
  · simp [h]
  · simp [h]

lemma strip_metadata_cons (p : String × PyVal) (tl : List (String × PyVal)) :
    strip_metadata (p :: tl) =
      if p.1 ∈ metaKeys then strip_metadata tl else p :: strip_metadata tl := by
  by_cases h1 : p.1 = "incomplete_results"
  · rw [if_pos (by simp [metaKeys, h1])]
    rw [strip_metadata, popKey_cons, if_pos h1]; rfl
  · by_cases h2 : p.1 = "repository_selection"
    · rw [if_pos (by simp [metaKeys, h2])]
      rw [strip_metadata, popKey_cons, if_neg h1, popKey_cons, if_pos h2]; rfl
    · by_cases h3 : p.1 = "total_count"
      · rw [if_pos (by simp [metaKeys, h3])]
        rw [strip_metadata, popKey_cons, if_neg h1, popKey_cons, if_neg h2,
          popKey_cons, if_pos h3]
        rfl
      · rw [if_neg (by simp [metaKeys, h1, h2, h3])]
        rw [strip_metadata, popKey_cons, if_neg h1, popKey_cons, if_neg h2,
          popKey_cons, if_neg h3]
        rfl

lemma strip_metadata_nil_of_meta (d : List (String × PyVal))
    (h : ∀ p ∈ d, p.1 ∈ metaKeys) : strip_metadata d = [] := by
  induction d with
  | nil => rfl
  | cons p tl ih =>
    rw [strip_metadata_cons, if_pos (h p (List.mem_cons_self p tl))]
    exact ih fun q hq => h q (List.mem_cons_of_mem p hq)

lemma strip_metadata_single (kvs : List (String × PyVal)) (k : String) (v : PyVal)
    (hnd : (kvs.map Prod.fst).Nodup) (hmem : (k, v) ∈ kvs) (hk : k ∉ metaKeys)
    (hall : ∀ p ∈ kvs, p.1 = k ∨ p.1 ∈ metaKeys) :
    strip_metadata kvs = [(k, v)] := by
  induction kvs with
  | nil => cases hmem
  | cons p tl ih =>
    rw [strip_metadata_cons]
    by_cases hp : p.1 ∈ metaKeys
    · rw [if_pos hp]
      have hmem' : (k, v) ∈ tl := by
        rcases List.mem_cons.mp hmem with h | h
        · exfalso; apply hk; rw [← h] at hp; exact hp
        · exact h
      exact ih (by simpa using (List.nodup_cons.mp (by simpa using hnd)).2) hmem'
        fun q hq => hall q (List.mem_cons_of_mem p hq)
    · rw [if_neg hp]
      have hpk : p.1 = k := (hall p (List.mem_cons_self p tl)).resolve_right hp
      have hnotin : p.1 ∉ tl.map Prod.fst :=
        (List.nodup_cons.mp (by simpa using hnd)).1
      have hpv : p = (k, v) := by
        rcases List.mem_cons.mp hmem with h | h
        · exact h.symm
        · exfalso; apply hnotin; rw [hpk]
          have := List.mem_map_of_mem Prod.fst h
          simpa using this
      have htl : strip_metadata tl = [] := by
        apply strip_metadata_nil_of_meta
        intro q hq
        rcases hall q (List.mem_cons_of_mem p hq) with h | h
        · exfalso; apply hnotin; rw [hpk, ← h]
          exact List.mem_map_of_mem Prod.fst hq
        · exact h
      rw [hpv, htl]

lemma strip_metadata_idem (d : List (String × PyVal)) :
    strip_metadata (strip_metadata d) = strip_metadata d := by
  induction d with
  | nil => rfl
  | cons p tl ih =>
    rw [strip_metadata_cons]
    by_cases hp : p.1 ∈ metaKeys
    · rw [if_pos hp, ih]
    · rw [if_neg hp, strip_metadata_cons, if_neg hp, ih]

/-- C6: for every page body that is a bare list, `parse_data` is the
identity on it; and for every falsy (absent / empty / null-like) page
body, `parse_data` returns the empty list rather than an error. -/
theorem parse_data_list_id_and_falsy_empty :
    (∀ (xs : List PyVal) (pn : Nat), parse_data (.list xs) pn = .ok (.list xs)) ∧
    (∀ (b : PyVal) (pn : Nat), pyFalsy b = true → parse_data b pn = .ok (.list [])) := by
  constructor
  · intro xs pn
    rfl
  · intro b pn h
    cases b with
    | none => rfl
    | bool b =>
      have hb : b = false := by simpa [pyFalsy] using h
      subst hb; rfl
    | int n =>
      have hn : n = 0 := by simpa [pyFalsy] using h
      subst hn; rfl
    | str s =>
      have hs : s = "" := by simpa [pyFalsy] using h
      subst hs; rfl
    | list xs =>
      have hx : xs = [] := by simpa [pyFalsy, List.isEmpty_iff] using h
      subst hx; rfl
    | dict kvs =>
      have hx : kvs = [] := by simpa [pyFalsy, List.isEmpty_iff] using h
      subst hx; rfl

/-- Witness for C6 at concrete inputs. -/
theorem parse_data_list_id_and_falsy_empty_witness :
    pyFalsy PyVal.none = true ∧
    parse_data (.list [.int 1]) 1 = .ok (.list [.int 1]) ∧
    parse_data .none 1 = .ok (.list []) :=
  ⟨rfl, parse_data_list_id_and_falsy_empty.1 [.int 1] 1,
    parse_data_list_id_and_falsy_empty.2 .none 1 rfl⟩

/-- C7: on a mapping whose keys are metadata keys plus exactly one data
key `k`, `parse_data` returns the value stored under `k`; and stripping
the metadata keys is idempotent. -/
theorem parse_data_wrapped_and_strip_idem
    (kvs : List (String × PyVal)) (k : String) (v : PyVal) (pn : Nat)
    (hnd : (kvs.map Prod.fst).Nodup) (hmem : (k, v) ∈ kvs) (hk : k ∉ metaKeys)
    (hall : ∀ p ∈ kvs, p.1 = k ∨ p.1 ∈ metaKeys) :
    parse_data (.dict kvs) pn = .ok v ∧
    ∀ d : List (String × PyVal), strip_metadata (strip_metadata d) = strip_metadata d := by
  refine ⟨?_, strip_metadata_idem⟩
  have hne : kvs ≠ [] := by rintro rfl; cases hmem
  have hstrip := strip_metadata_single kvs k v hnd hmem hk hall
  have hfal : pyFalsy (.dict kvs) = false := by
    simpa [pyFalsy, List.isEmpty_iff] using hne
  simp [parse_data, hfal, hstrip, List.lookup]

/-- Witness for C7 at a concrete wrapped page. -/
theorem parse_data_wrapped_and_strip_idem_witness :
    "items" ∉ metaKeys ∧
    parse_data (.dict [("items", .list [.int 7]), ("total_count", .int 1)]) 1
      = .ok (.list [.int 7]) :=
  ⟨by decide,
    (parse_data_wrapped_and_strip_idem
      [("items", .list [.int 7]), ("total_count", .int 1)] "items" (.list [.int 7]) 1
      (by decide) (List.mem_cons_self _ _) (by decide)
      (by decide)).1⟩

/-- C9: a truthy mapping all of whose keys are metadata keys leaves zero
keys after stripping, and `parse_data` raises `IndexError` at
`list(data.keys())[0]`. -/
theorem parse_data_all_meta_index_error
    (kvs : List (String × PyVal)) (pn : Nat)
    (hne : kvs ≠ []) (hall : ∀ p ∈ kvs, p.1 ∈ metaKeys) :
    parse_data (.dict kvs) pn = .error .indexError := by
  have hfal : pyFalsy (.dict kvs) = false := by
    simpa [pyFalsy, List.isEmpty_iff] using hne
  simp [parse_data, hfal, strip_metadata_nil_of_meta kvs hall]

/-- Witness for C9 at a concrete all-metadata page. -/
theorem parse_data_all_meta_index_error_witness :
    ([(("total_count" : String), PyVal.int 0)] ≠ []) ∧
    parse_data (.dict [("total_count", .int 0)]) 1 = .error .indexError :=
  ⟨by simp,
    parse_data_all_meta_index_error [("total_count", .int 0)] 1 (by simp) (by decide)⟩


/-! Helper lemmas about the dict heap. -/

lemma getObj_append : ∀ (s t : Store) (r : Nat), r < s.length →
    getObj (s ++ t) r = getObj s r
  | [], _, r, h => absurd h (by simp)
  | x :: s, t, 0, _ => rfl
  | x :: s, t, r + 1, h => getObj_append s t r (by simpa using h)

lemma getObj_set_ne : ∀ (s : Store) (a r : Nat) (v : List (String × PyObj)),
    r ≠ a → getObj (List.set s a v) r = getObj s r
  | [], _, _, _, _ => rfl
  | x :: s, 0, 0, v, h => absurd rfl h
  | x :: s, 0, r + 1, v, _ => rfl
  | x :: s, a + 1, 0, v, _ => rfl
  | x :: s, a + 1, r + 1, v, h => getObj_set_ne s a r v (by omega)

/-- C8: `parse_data` does not mutate its argument.  In the
heap-instrumented embedding, running `parse_data_mem` on the mapping at
address `r` leaves the object stored at `r` unchanged: `data.copy()`
(line 55) makes the three `pop` calls act on a fresh object only. -/
theorem parse_data_mem_frame (store : Store) (r : Nat) (pn : Nat)
    (hr : r < store.length) :
    getObj (parse_data_mem store (.dictRef r) pn).1 r = getObj store r := by
  by_cases hf : pyFalsyObj store (.dictRef r)
  · simp [parse_data_mem, hf]
  · have hne : r ≠ store.length := by omega
    simp only [parse_data_mem, hf, if_false, Bool.false_eq_true]
    have hkey : ∀ (s : Store) (key : String), getObj s r = getObj store r →
        getObj (popKeyAt s store.length key) r = getObj store r := by
      intro s key h
      rw [popKeyAt, getObj_set_ne s store.length r _ hne, h]
    have h1 : getObj (store ++ [getObj store r]) r = getObj store r :=
      getObj_append store _ r hr
    have h4 := hkey _ "total_count" (hkey _ "repository_selection"
      (hkey _ "incomplete_results" h1))
    split <;> simpa using h4

/-- Witness for C8 at a concrete one-object heap. -/
theorem parse_data_mem_frame_witness :
    0 < ([[("a", PyObj.int 1)]] : Store).length ∧
    getObj (parse_data_mem [[("a", PyObj.int 1)]] (.dictRef 0) 1).1 0
      = getObj [[("a", PyObj.int 1)]] 0 :=
  ⟨by decide, parse_data_mem_frame [[("a", PyObj.int 1)]] 0 1 (by decide)⟩

/-!
Request outcomes that the `except requests.exceptions.RequestException`
handler on source line 158 catches.  Besides genuine transport failures
this includes the `HTTPError` raised on line 134 (status 403 whose
remaining-quota header is nonzero) and the `HTTPError` raised by
`response.raise_for_status()` on line 137 (any status 400-599), because
`requests.exceptions.HTTPError` is a subclass of
`requests.exceptions.RequestException`.
-/
def transportLike : ReqEvent → Prop
  | .exn => True
  | .resp r =>
    (r.status = 403 ∧ r.remaining.getD 0 ≠ 0) ∨
    (r.status ≠ 403 ∧ 400 ≤ r.status ∧ r.status < 600)

lemma tryBody_transportLike (e : ReqEvent) (st : EngineState)
    (h : transportLike e) : tryBody e st = .reqExc st := by
  cases e with
  | exn => rfl
  | resp r =>
    rcases h with ⟨h4, hrem⟩ | ⟨hn, hge, hlt⟩
    · simp [tryBody, h4, check_rate_limit, hrem]
    · simp [tryBody, hn, hge, hlt]

lemma engineLoop_transportLike (m : Nat) (rest : List ReqEvent)
    (st : EngineState) (e : ReqEvent) (h : transportLike e) :
    engineLoop m (e :: rest) st = engineLoop m (.exn :: rest) st := by
  simp only [engineLoop]
  rw [tryBody_transportLike e st h]
  rfl

lemma engineLoop_exhaust : ∀ (evs : List ReqEvent) (st : EngineState) (m : Nat),
    (∀ e ∈ evs, transportLike e) → st.pagesRemaining = true →
    st.retries + evs.length = m → evs ≠ [] →
    isFinishedWith (engineLoop m evs st) st.data := by
  intro evs
  induction evs with
  | nil => intro st m _ _ _ h; exact absurd rfl h
  | cons e tl ih =>
    intro st m hall hp hlen _
    have hlt : st.retries < m := by simp at hlen; omega
    rw [engineLoop_transportLike m tl st e (hall e (List.mem_cons_self e tl))]
    simp only [engineLoop, tryBody]
    rw [if_pos ⟨hp, hlt⟩]
    by_cases hend : m ≤ st.retries + 1
    · rw [if_pos hend]
      simp [isFinishedWith]
    · rw [if_neg hend]
      apply ih
      · intro e' he'; exact hall e' (List.mem_cons_of_mem e he')
      · exact hp
      · simp at hlen ⊢; omega
      · intro hnil
        rw [hnil] at hlen
        simp at hlen
        omega

/-- Filler url for concrete runs. -/
def url0 : List Char := "u".toList

/-- A forbidden response whose remaining-quota header is nonzero. -/
def forbiddenResp : Response :=
  { status := 403, remaining := some 42, reset := some 0,
    link := Option.none, body := .list [] }

/-- A plain server-error response. -/
def serverErrorResp : Response :=
  { status := 500, remaining := Option.none, reset := Option.none,
    link := Option.none, body := .list [] }

/-- C1 counterexample: a run that receives a 403 response with nonzero
remaining quota on every attempt does NOT terminate immediately with a
fatal error: the `HTTPError` raised on line 134 is caught by the
`RequestException` handler on line 158, so the run retries twice (the
backoff sleeps `[2, 4]` are in the trace and three scripted requests are
consumed) and then returns normally with zero items instead of
propagating an error. -/
theorem forbidden_nonquota_counterexample :
    get_paginated_data (List.replicate 3 (.resp forbiddenResp)) url0 0 3 =
      .finished { url := url0, pagesRemaining := true, data := [], retries := 3,
                  pageNumber := 1, clock := 6, sleeps := [2, 4] } := rfl

/-- C1 amended: a 403 response with nonzero remaining quota is treated
exactly like a transport failure (its `HTTPError` is caught by the
handler on line 158): the iteration is indistinguishable from one whose
request raised a transport exception, and a run fed only such responses
retries with backoff up to the ceiling and then returns zero items
without raising. -/
theorem forbidden_nonquota_retried_not_fatal (resp : Response)
    (h403 : resp.status = 403) (hrem : resp.remaining.getD 0 ≠ 0) :
    (∀ (m : Nat) (st : EngineState) (rest : List ReqEvent),
        engineLoop m (.resp resp :: rest) st = engineLoop m (.exn :: rest) st) ∧
    (∀ (url : List Char) (clk : Int) (m : Nat), 1 ≤ m →
        isFinishedWith (get_paginated_data (List.replicate m (.resp resp)) url clk m) []) := by
  constructor
  · intro m st rest
    exact engineLoop_transportLike m rest st _ (Or.inl ⟨h403, hrem⟩)
  · intro url clk m hm
    have h := engineLoop_exhaust (List.replicate m (.resp resp)) (initState url clk) m
      (fun e he => by
        rw [List.eq_of_mem_replicate he]
        exact Or.inl ⟨h403, hrem⟩)
      rfl (by simp [initState])
      (by
        intro hnil
        rw [List.replicate_eq_nil_iff] at hnil
        omega)
    simpa [get_paginated_data, initState] using h

/-- Witness for the amended C1 at the concrete forbidden response. -/
theorem forbidden_nonquota_retried_not_fatal_witness :
    forbiddenResp.status = 403 ∧
    isFinishedWith (get_paginated_data (List.replicate 3 (.resp forbiddenResp)) url0 0 3) [] :=
  ⟨rfl, (forbidden_nonquota_retried_not_fatal forbiddenResp rfl (by decide)).2
    url0 0 3 (by decide)⟩

/-- C2 counterexample: a run that receives a 500 response on every attempt
does NOT propagate the error immediately: the `HTTPError` raised by
`raise_for_status()` on line 137 is caught by the `RequestException`
handler on line 158, so the run retries twice (backoff sleeps `[2, 4]`,
three scripted requests consumed) and then returns normally with zero
items. -/
theorem http_error_counterexample :
    get_paginated_data (List.replicate 3 (.resp serverErrorResp)) url0 0 3 =
      .finished { url := url0, pagesRemaining := true, data := [], retries := 3,
                  pageNumber := 1, clock := 6, sleeps := [2, 4] } := rfl

/-- C2 amended: a non-success status other than 403 (400-599) is treated
exactly like a transport failure: its `HTTPError` is caught by the
handler on line 158, the iteration is indistinguishable from a transport
exception, and a run fed only such responses retries with backoff up to
the ceiling and then returns zero items without raising. -/
theorem http_error_retried_not_fatal (resp : Response)
    (hn : resp.status ≠ 403) (hge : 400 ≤ resp.status) (hlt : resp.status < 600) :
    (∀ (m : Nat) (st : EngineState) (rest : List ReqEvent),
        engineLoop m (.resp resp :: rest) st = engineLoop m (.exn :: rest) st) ∧
    (∀ (url : List Char) (clk : Int) (m : Nat), 1 ≤ m →
        isFinishedWith (get_paginated_data (List.replicate m (.resp resp)) url clk m) []) := by
  constructor
  · intro m st rest
    exact engineLoop_transportLike m rest st _ (Or.inr ⟨hn, hge, hlt⟩)
  · intro url clk m hm
    have h := engineLoop_exhaust (List.replicate m (.resp resp)) (initState url clk) m
      (fun e he => by
        rw [List.eq_of_mem_replicate he]
        exact Or.inr ⟨hn, hge, hlt⟩)
      rfl (by simp [initState])
      (by
        intro hnil
        rw [List.replicate_eq_nil_iff] at hnil
        omega)
    simpa [get_paginated_data, initState] using h

/-- Witness for the amended C2 at the concrete 500 response. -/
theorem http_error_retried_not_fatal_witness :
    serverErrorResp.status = 500 ∧
    isFinishedWith (get_paginated_data (List.replicate 3 (.resp serverErrorResp)) url0 0 3) [] :=
  ⟨rfl, (http_error_retried_not_fatal serverErrorResp (by decide) (by decide)
    (by decide)).2 url0 0 3 (by decide)⟩

/-! Link-header extraction lemmas. -/

lemma greedyGroup_append (u : List Char) (h : ∀ c ∈ u, isWS c = false) :
    greedyGroup (u ++ nextAnchor) = some u := by
  induction u with
  | nil =>
    rw [List.nil_append]
    decide
  | cons c cs ih =>
    have hc : isWS c = false := h c (List.mem_cons_self c cs)
    have ih' := ih fun x hx => h x (List.mem_cons_of_mem c hx)
    rw [List.cons_append]
    simp [greedyGroup, hc, ih']

lemma search_nextHeader (u : List Char) (h : ∀ c ∈ u, isWS c = false) :
    next_pattern_search (nextHeader u) = some u := by
  show searchNextAux ('<' :: (u ++ nextAnchor)) = some u
  simp [searchNextAux, greedyGroup_append u h]

lemma hasSubstr_cons (pat : List Char) (c : Char) (cs : List Char)
    (h : hasSubstrChars pat cs = true) : hasSubstrChars pat (c :: cs) = true := by
  simp [hasSubstrChars, h]

lemma hasSubstr_append (pat x cs : List Char)
    (h : hasSubstrChars pat cs = true) : hasSubstrChars pat (x ++ cs) = true := by
  induction x with
  | nil => simpa
  | cons a tl ih => exact hasSubstr_cons pat a _ ih

lemma linkNext_nextHeader (u : List Char) : linkNext (some (nextHeader u)) = true := by
  show hasSubstrChars relNext ('<' :: (u ++ nextAnchor)) = true
  apply hasSubstr_cons
  apply hasSubstr_append
  decide

/-! One successful page advances the loop. -/

lemma engineLoop_page_next (m : Nat) (items : List PyVal) (u : List Char)
    (hu : ∀ c ∈ u, isWS c = false) (st : EngineState) (rest : List ReqEvent)
    (hp : st.pagesRemaining = true) (hr : st.retries < m) :
    engineLoop m (pageEvent items (some (nextHeader u)) :: rest) st =
      engineLoop m rest
        { st with url := u, data := st.data ++ items, pagesRemaining := true,
                  pageNumber := st.pageNumber + 1, retries := 0 } := by
  obtain ⟨u0, pr, d, rt, pn, ck, sl⟩ := st
  simp only [EngineState.mk.injEq] at hp ⊢
  subst hp
  simp only [engineLoop]
  rw [if_pos ⟨trivial, hr⟩]
  simp [tryBody, pageEvent, parse_data, extendPy, linkNext_nextHeader u,
    search_nextHeader u hu]

lemma engineLoop_page_last (m : Nat) (items : List PyVal)
    (st : EngineState) (rest : List ReqEvent)
    (hp : st.pagesRemaining = true) (hr : st.retries < m) :
    engineLoop m (pageEvent items Option.none :: rest) st =
      engineLoop m rest
        { st with data := st.data ++ items, pagesRemaining := false, retries := 0 } := by
  obtain ⟨u0, pr, d, rt, pn, ck, sl⟩ := st
  simp only [EngineState.mk.injEq] at hp ⊢
  subst hp
  simp only [engineLoop]
  rw [if_pos ⟨trivial, hr⟩]
  simp [tryBody, pageEvent, parse_data, extendPy, linkNext]

lemma engineLoop_linked : ∀ (linked : List (List PyVal × List Char))
    (st : EngineState) (m : Nat) (rest : List ReqEvent),
    0 < m → st.pagesRemaining = true → st.retries = 0 →
    (∀ p ∈ linked, goodUrl p.2) →
    engineLoop m ((linked.map fun p => pageEvent p.1 (some (nextHeader p.2))) ++ rest) st =
      engineLoop m rest
        { url := (linked.map Prod.snd).getLastD st.url,
          pagesRemaining := true,
          data := st.data ++ (linked.map Prod.fst).flatten,
          retries := 0,
          pageNumber := st.pageNumber + linked.length,
          clock := st.clock, sleeps := st.sleeps } := by
  intro linked
  induction linked with
  | nil =>
    intro st m rest hm hp hr hg
    obtain ⟨u0, pr, d, rt, pn, ck, sl⟩ := st
    simp at hp hr
    subst hp
    subst hr
    simp
  | cons p tl ih =>
    intro st m rest hm hp hr hg
    obtain ⟨it, u⟩ := p
    rw [List.map_cons, List.cons_append]
    rw [engineLoop_page_next m it u
      (fun c hc => (hg (it, u) (List.mem_cons_self _ _) c hc).2) st _ hp (by omega)]
    rw [ih _ m rest hm rfl rfl (fun q hq => hg q (List.mem_cons_of_mem _ hq))]
    refine congrArg _ ?_
    obtain ⟨u0, pr, d, rt, pn, ck, sl⟩ := st
    simp only [List.map_cons, List.getLastD_cons, List.flatten_cons,
      List.append_assoc, List.length_cons, EngineState.mk.injEq,
      and_true, true_and]
    omega

/-- C3: a run that fetches an arbitrary chain of successful linked pages
and then hits transport exceptions on every attempt until the retry
counter reaches the ceiling `m` (default 3) returns the items accumulated
before the failures, as a normal return -- no error is raised. -/
theorem transport_failures_return_partial (linked : List (List PyVal × List Char))
    (m : Nat) (hm : 1 ≤ m) (hg : ∀ p ∈ linked, goodUrl p.2)
    (url : List Char) (clk : Int) :
    isFinishedWith
      (get_paginated_data
        ((linked.map fun p => pageEvent p.1 (some (nextHeader p.2)))
          ++ List.replicate m .exn) url clk m)
      ((linked.map Prod.fst).flatten) := by
  unfold get_paginated_data
  rw [engineLoop_linked linked (initState url clk) m (List.replicate m .exn)
    (by omega) rfl rfl hg]
  exact engineLoop_exhaust _ _ m
    (fun e he => by rw [List.eq_of_mem_replicate he]; trivial)
    rfl (by simp)
    (by
      intro hnil
      rw [List.replicate_eq_nil_iff] at hnil
      omega)

/-- Witness for C3: one successful page, then three transport failures,
ceiling 3. -/
theorem transport_failures_return_partial_witness :
    (1 : Nat) ≤ 3 ∧
    isFinishedWith
      (get_paginated_data
        (([([PyVal.int 9], "n".toList)].map fun p => pageEvent p.1 (some (nextHeader p.2)))
          ++ List.replicate 3 .exn) url0 0 3)
      [PyVal.int 9] :=
  ⟨by decide, transport_failures_return_partial [([PyVal.int 9], "n".toList)] 3
    (by decide) (by decide) url0 0⟩

/-- C4: on a 403 response whose remaining-quota header is exactly 0 and
whose reset header is `rs`, `check_rate_limit` sleeps for
`max (rs - now + 1) 0` seconds and signals the distinguishable
`GitHubRateLimitError`; the engine catches it (line 126) and `continue`s:
the loop goes on with the SAME url, data, retry counter and page number
(only the clock advances and the sleep is recorded), so the identical
request is re-issued and nothing is surfaced to the caller as a
failure. -/
theorem rate_limit_waits_and_retries_same_request (resp : Response)
    (now rs : Int) (h403 : resp.status = 403) (h0 : resp.remaining = some 0)
    (hrs : resp.reset = some rs) :
    check_rate_limit resp now = .rateLimited (max (rs - now + 1) 0) ∧
    ∀ (m : Nat) (st : EngineState) (rest : List ReqEvent),
      st.pagesRemaining = true → st.retries < m → st.clock = now →
      engineLoop m (.resp resp :: rest) st =
        engineLoop m rest
          { st with clock := st.clock + max (rs - now + 1) 0,
                    sleeps := st.sleeps ++ [max (rs - now + 1) 0] } := by
  constructor
  · simp [check_rate_limit, h0, hrs]
  · intro m st rest hp hr hclk
    subst hclk
    simp only [engineLoop]
    rw [if_pos ⟨hp, hr⟩]
    simp [tryBody, h403, check_rate_limit, h0, hrs]

/-- The concrete rate-limited response used by the C4 witness. -/
def rateLimitedResp : Response :=
  { status := 403, remaining := some 0, reset := some 10,
    link := Option.none, body := .list [] }

/-- Witness for C4: reset 10, clock 5, so the recorded sleep is 6. -/
theorem rate_limit_waits_and_retries_same_request_witness :
    check_rate_limit rateLimitedResp 5 = .rateLimited (max (10 - 5 + 1) 0) ∧
    engineLoop 3 [.resp rateLimitedResp] (initState url0 5) =
      engineLoop 3 []
        { initState url0 5 with
          clock := (initState url0 5).clock + max (10 - 5 + 1) 0,
          sleeps := (initState url0 5).sleeps ++ [max (10 - 5 + 1) 0] } :=
  ⟨(rate_limit_waits_and_retries_same_request rateLimitedResp 5 10 rfl rfl rfl).1,
   (rate_limit_waits_and_retries_same_request rateLimitedResp 5 10 rfl rfl rfl).2
     3 (initState url0 5) [] rfl (by decide) rfl⟩

lemma flatten_length_const : ∀ (L : List (List PyVal)) (k : Nat),
    (∀ l ∈ L, l.length = k) → L.flatten.length = L.length * k := by
  intro L k h
  induction L with
  | nil => simp
  | cons a tl ih =>
    simp only [List.flatten_cons, List.length_append, List.length_cons]
    rw [h a (List.mem_cons_self a tl), ih fun l hl => h l (List.mem_cons_of_mem a hl)]
    ring

/-- C5: for `N = linked.length + 1` successful pages of `k` items each,
every page but the last linked via a `<url>; rel="next"` header, the run
returns all `N*k` items, concatenated in page-arrival order with each
page's own order preserved. -/
theorem pages_all_items_in_order (linked : List (List PyVal × List Char))
    (last : List PyVal) (k : Nat) (url : List Char) (clk : Int)
    (hg : ∀ p ∈ linked, goodUrl p.2)
    (hlen : ∀ p ∈ linked, p.1.length = k) (hlast : last.length = k) :
    isFinishedWith (get_paginated_data (pagesScript linked last) url clk 3)
      ((linked.map Prod.fst ++ [last]).flatten) ∧
    ((linked.map Prod.fst ++ [last]).flatten).length = (linked.length + 1) * k := by
  constructor
  · unfold get_paginated_data pagesScript
    rw [engineLoop_linked linked (initState url clk) 3 [pageEvent last Option.none]
      (by omega) rfl rfl hg]
    rw [engineLoop_page_last]
    · simp [engineLoop, isFinishedWith, initState, List.flatten_append]
    · rfl
    · show (0 : Nat) < 3
      omega
  · rw [flatten_length_const _ k]
    · simp [Nat.add_mul]
    · intro l hl
      rcases List.mem_append.mp hl with h1 | h2
      · obtain ⟨p, hp, rfl⟩ := List.mem_map.mp h1
        exact hlen p hp
      · rw [List.mem_singleton.mp h2]
        exact hlast

/-- Witness for C5: two linked pages of two items each plus a final page,
so 4 = 2*2 items for the linked part and total (1+1)*2. -/
theorem pages_all_items_in_order_witness :
    ([PyVal.int 3, PyVal.int 4].length = 2) ∧
    isFinishedWith
      (get_paginated_data
        (pagesScript [([PyVal.int 1, PyVal.int 2], "a".toList)] [PyVal.int 3, PyVal.int 4])
        url0 0 3)
      [PyVal.int 1, PyVal.int 2, PyVal.int 3, PyVal.int 4] :=
  ⟨by decide,
   (pages_all_items_in_order [([PyVal.int 1, PyVal.int 2], "a".toList)]
     [PyVal.int 3, PyVal.int 4] 2 url0 0 (by decide) (by decide) rfl).1⟩

/-- A successful response whose Link header contains `rel="next"` but not
in the `<url>; rel="next"` shape (no space after the semicolon). -/
def badLinkResp : Response :=
  { status := 200, remaining := Option.none, reset := Option.none,
    link := some ("<a>;rel=\"next\"".toList), body := .list [] }

/-- C10: on a successful response whose Link header contains the substring
rel="next" (so line 145 decides more pages remain) yet matches no part of
the regex pattern on line 91 (here: no space after the semicolon),
`next_pattern.search(...)` returns None and `.group(1)` raises
`AttributeError`; that exception is not a `RequestException`, so the
handler on line 158 does not catch it and the run raises instead of
returning or retrying. -/
theorem malformed_link_header_raises :
    get_paginated_data [.resp badLinkResp] url0 0 3 =
      .raised { url := url0, pagesRemaining := true, data := [], retries := 0,
                pageNumber := 1, clock := 0, sleeps := [] } .attributeError := rfl
